import Mathlib

/-!
Shallow embedding of the data-quality audit pipeline of this repository:
single-check execution and classification (test_executor.py,
TestExecutor._execute_single_test and _generate_notes), batch execution
(TestExecutor.execute_tests), summary aggregation (TestExecutor.get_summary),
defect-example rendering (redshift_client.py,
RedshiftClient.format_defect_examples, with MAX_DEFECT_EXAMPLES from
config.py), and generator-response extraction and validation
(bedrock_client.py, BedrockClient._parse_response).

External effects are abstracted as parameters: the warehouse's
query-execution capability is a function from SQL text to either a row
list or an error message (Except String (List Row), where the error case
models a raised exception and its message), the JSON decoder backing
json.loads is a function from the extracted payload to an optional list
of raw test dicts (none models a JSONDecodeError), and the clock is a
timestamp string argument.
-/

namespace DataQualityAudit

/-- A returned row: ordered association list of column name to the
rendered value of the cell, as produced by RedshiftClient.execute_query
(dict(zip(columns, row)), insertion ordered; values are kept in their
rendered string form since the code only ever interpolates them). -/
abbrev Row := List (String × String)

/-- From config.py: MAX_DEFECT_EXAMPLES = 5, the number of example
defects to capture per test. -/
def MAX_DEFECT_EXAMPLES : Nat := 5

/-- One row rendered as key=value pairs joined by ", ", as in
RedshiftClient.format_defect_examples's inner join over row.items(). -/
def renderRow (row : Row) : String :=
  String.intercalate ", " (row.map (fun kv => kv.1 ++ "=" ++ kv.2))

/-- RedshiftClient.format_defect_examples: empty string when there are no
rows, otherwise the first limit rows each rendered by renderRow and
joined by "; ". -/
def format_defect_examples (query_results : List Row) (limit : Nat) : String :=
  if query_results.isEmpty then ""
  else String.intercalate "; " ((query_results.take limit).map renderRow)

/-- A validated test definition: the five required fields every CheckSpec
carries (test_name, test_category, test_description, test_query,
severity), all strings in the code. -/
structure CheckSpec where
  test_name : String
  test_category : String
  test_description : String
  test_query : String
  severity : String
deriving DecidableEq, Repr

/-- The result dict built by TestExecutor._execute_single_test:
the five fields of the CheckSpec plus defect_count (an int, -1 on the
error path), defect_examples, status, notes, execution_timestamp and
model_name. -/
structure CheckResult where
  test_name : String
  test_category : String
  test_description : String
  test_query : String
  defect_count : Int
  defect_examples : String
  status : String
  severity : String
  notes : String
  execution_timestamp : String
  model_name : String
deriving DecidableEq, Repr

/-- TestExecutor._generate_notes: the PASS message lowercases the
description; on failure a category-specific template names the defect
count, with a generic fallback for categories outside the fixed
enumeration. -/
def generate_notes (test_def : CheckSpec) (status : String) (defect_count : Int) : String :=
  if status = "PASS" then
    "No issues found - " ++ test_def.test_description.toLower
  else if test_def.test_category = "Uniqueness" then
    "Found " ++ toString defect_count ++ " duplicate record(s) - investigate data load process"
  else if test_def.test_category = "Nullability" then
    "Found " ++ toString defect_count ++ " record(s) with unexpected NULL values"
  else if test_def.test_category = "Referential Integrity" then
    "Found " ++ toString defect_count ++ " record(s) with referential integrity issues"
  else if test_def.test_category = "Date Validity" then
    "Found " ++ toString defect_count ++ " record(s) with invalid dates"
  else if test_def.test_category = "Business Logic" then
    "Found " ++ toString defect_count ++ " record(s) with business logic violations"
  else if test_def.test_category = "Value Range" then
    "Found " ++ toString defect_count ++ " record(s) with values outside expected range"
  else if test_def.test_category = "Data Consistency" then
    "Found " ++ toString defect_count ++ " record(s) with data consistency issues"
  else
    "Found " ++ toString defect_count ++ " defect(s)"

/-- TestExecutor._execute_single_test. The try/except around
execute_query is modelled by the Except value returned by the
query-execution capability: ok rows is a normal return, error e is a
raised exception with message e, caught here and turned into the ERROR
result. The function is total: no outcome propagates an exception. -/
def execute_single_test (execute_query : String → Except String (List Row))
    (test_def : CheckSpec) (model_name : String) (execution_timestamp : String) :
    CheckResult :=
  match execute_query test_def.test_query with
  | Except.ok query_results =>
    let defect_count : Int := query_results.length
    let defect_examples : String :=
      if defect_count > 0 then format_defect_examples query_results MAX_DEFECT_EXAMPLES
      else ""
    let status : String := if defect_count = 0 then "PASS" else "FAIL"
    let notes : String := generate_notes test_def status defect_count
    ⟨test_def.test_name, test_def.test_category, test_def.test_description,
      test_def.test_query, defect_count, defect_examples, status,
      test_def.severity, notes, execution_timestamp, model_name⟩
  | Except.error e =>
    ⟨test_def.test_name, test_def.test_category, test_def.test_description,
      test_def.test_query, -1, "", "ERROR", test_def.severity,
      "Test execution failed: " ++ e, execution_timestamp, model_name⟩

/-- TestExecutor.execute_tests: the loop appending one result per test
definition, written as structural recursion. -/
def execute_tests (execute_query : String → Except String (List Row))
    (test_definitions : List CheckSpec) (model_name : String)
    (execution_timestamp : String) : List CheckResult :=
  match test_definitions with
  | [] => []
  | td :: rest =>
    execute_single_test execute_query td model_name execution_timestamp ::
      execute_tests execute_query rest model_name execution_timestamp

/-- The summary dict built by TestExecutor.get_summary. -/
structure AuditSummary where
  total_tests : Nat
  passed : Nat
  failed : Nat
  errors : Nat
  total_defects : Int
  critical_failures : Nat
  high_failures : Nat
deriving DecidableEq, Repr

/-- The comprehension sum(1 for r in test_results if r.status == st). -/
def count_status : List CheckResult → String → Nat
  | [], _ => 0
  | r :: rest, st => (if r.status = st then 1 else 0) + count_status rest st

/-- The comprehension sum(r.defect_count for r in test_results if
r.defect_count > 0). -/
def sum_positive_defects : List CheckResult → Int
  | [] => 0
  | r :: rest =>
    (if r.defect_count > 0 then r.defect_count else 0) + sum_positive_defects rest

/-- The comprehension sum(1 for r in test_results if r.status == "FAIL"
and r.severity == sev). -/
def count_failures_at_severity : List CheckResult → String → Nat
  | [], _ => 0
  | r :: rest, sev =>
    (if r.status = "FAIL" ∧ r.severity = sev then 1 else 0) +
      count_failures_at_severity rest sev

/-- TestExecutor.get_summary. -/
def get_summary (test_results : List CheckResult) : AuditSummary :=
  ⟨test_results.length,
   count_status test_results "PASS",
   count_status test_results "FAIL",
   count_status test_results "ERROR",
   sum_positive_defects test_results,
   count_failures_at_severity test_results "CRITICAL",
   count_failures_at_severity test_results "HIGH"⟩

/-- A raw test object decoded from the generator's JSON array: an
ordered association list of field name to rendered value (a Python
dict; validation only inspects key membership). -/
abbrev RawTest := List (String × String)

/-- BedrockClient._parse_response: required_fields. -/
def required_fields : List String :=
  ["test_name", "test_category", "test_description", "test_query", "severity"]

/-- Key membership, Python's field in test on a dict. -/
def hasField (test : RawTest) (field : String) : Bool :=
  test.any (fun kv => kv.1 == field)

/-- all(field in test for field in required_fields). -/
def hasAllRequiredFields (test : RawTest) : Bool :=
  required_fields.all (fun field => hasField test field)

/-- The validation loop of BedrockClient._parse_response: appends a
decoded element to validated_tests exactly when all required fields are
present, in input order. -/
def validate_tests : List RawTest → List RawTest
  | [] => []
  | test :: rest =>
    if hasAllRequiredFields test then test :: validate_tests rest
    else validate_tests rest

/-- Python str.find for a single character: index of the first
occurrence, or -1 when absent. -/
def py_find : List Char → Char → Int
  | [], _ => -1
  | a :: rest, c =>
    if a = c then 0
    else if py_find rest c = -1 then -1 else py_find rest c + 1

/-- Python str.rfind for a single character: index of the last
occurrence, or -1 when absent. -/
def py_rfind : List Char → Char → Int
  | [], _ => -1
  | a :: rest, c =>
    if py_rfind rest c = -1 then (if a = c then 0 else -1)
    else py_rfind rest c + 1

/-- Python s[a:b] for nonnegative bounds: drop a, then take b - a. -/
def py_slice (s : List Char) (a b : Int) : List Char :=
  (s.drop a.toNat).take (b.toNat - a.toNat)

/-- The extraction step of BedrockClient._parse_response: json_start =
find of the first bracket, json_end = rfind of the closing bracket plus
one; fails (the raised ValueError) when either is absent, otherwise
slices the payload out of the raw response. -/
def extract_payload (response_text : List Char) : Option (List Char) :=
  if py_find response_text '[' = -1 ∨ py_rfind response_text ']' + 1 = 0 then none
  else
    some (py_slice response_text (py_find response_text '[')
      (py_rfind response_text ']' + 1))

/-- BedrockClient._parse_response: extract the payload (ValueError when
no array is found), decode it (JSONDecodeError when not valid JSON, the
decoder being a parameter), then validate each element. Both error cases
re-raise, modelled by Except.error. -/
def parse_response (decode : List Char → Option (List RawTest))
    (response_text : List Char) : Except String (List RawTest) :=
  match extract_payload response_text with
  | none => Except.error "No JSON array found in response"
  | some json_str =>
    match decode json_str with
    | none => Except.error "JSONDecodeError"
    | some tests => Except.ok (validate_tests tests)

/-- Reads the five required fields out of a validated test dict, as the
executor's test_def subscript lookups do (each lookup succeeds on a
validated dict; the default is never consulted there). -/
def specOfRaw (test : RawTest) : CheckSpec :=
  ⟨(test.lookup "test_name").getD "",
   (test.lookup "test_category").getD "",
   (test.lookup "test_description").getD "",
   (test.lookup "test_query").getD "",
   (test.lookup "severity").getD ""⟩

/-! Helper lemmas shared by the claim theorems. -/

/-- On a successful query, the result record spelled out. -/
theorem execute_single_test_of_ok (env : String → Except String (List Row))
    (spec : CheckSpec) (m ts : String) (rows : List Row)
    (h : env spec.test_query = Except.ok rows) :
    execute_single_test env spec m ts =
      ⟨spec.test_name, spec.test_category, spec.test_description, spec.test_query,
       (rows.length : Int),
       (if (rows.length : Int) > 0 then format_defect_examples rows MAX_DEFECT_EXAMPLES
        else ""),
       (if (rows.length : Int) = 0 then "PASS" else "FAIL"),
       spec.severity,
       generate_notes spec (if (rows.length : Int) = 0 then "PASS" else "FAIL")
         (rows.length : Int),
       ts, m⟩ := by
  simp [execute_single_test, h]

/-- On a raised query exception, the result record spelled out. -/
theorem execute_single_test_of_error (env : String → Except String (List Row))
    (spec : CheckSpec) (m ts : String) (e : String)
    (h : env spec.test_query = Except.error e) :
    execute_single_test env spec m ts =
      ⟨spec.test_name, spec.test_category, spec.test_description, spec.test_query,
       -1, "", "ERROR", spec.severity, "Test execution failed: " ++ e, ts, m⟩ := by
  simp [execute_single_test, h]

theorem execute_tests_length (env : String → Except String (List Row))
    (defs : List CheckSpec) (m ts : String) :
    (execute_tests env defs m ts).length = defs.length := by
  induction defs with
  | nil => rfl
  | cons td rest ih => simp [execute_tests, ih]

theorem execute_tests_getElem (env : String → Except String (List Row))
    (defs : List CheckSpec) (m ts : String) (i : Nat) :
    (execute_tests env defs m ts)[i]? =
      (defs[i]?).map (fun d => execute_single_test env d m ts) := by
  induction defs generalizing i with
  | nil => simp [execute_tests]
  | cons td rest ih => cases i <;> simp [execute_tests, ih]

theorem execute_single_test_status (env : String → Except String (List Row))
    (spec : CheckSpec) (m ts : String) :
    (execute_single_test env spec m ts).status = "PASS" ∨
    (execute_single_test env spec m ts).status = "FAIL" ∨
    (execute_single_test env spec m ts).status = "ERROR" := by
  cases h : env spec.test_query with
  | ok rows =>
    rw [execute_single_test_of_ok env spec m ts rows h]
    by_cases hn : (rows.length : Int) = 0 <;> simp [hn]
  | error e =>
    rw [execute_single_test_of_error env spec m ts e h]
    simp

/-! Claim theorems. -/

/-- C1: for every list of CheckSpecs and every behaviour of the
query-execution capability, execute_tests returns exactly as many
CheckResults as there are CheckSpecs, the i-th result produced from the
i-th CheckSpec by execute_single_test, and every result's status is one
of PASS, FAIL, ERROR. -/
theorem execute_tests_batch_contract (env : String → Except String (List Row))
    (defs : List CheckSpec) (m ts : String) :
    (execute_tests env defs m ts).length = defs.length
    ∧ (∀ i : Nat, (execute_tests env defs m ts)[i]? =
        (defs[i]?).map (fun d => execute_single_test env d m ts))
    ∧ (∀ r ∈ execute_tests env defs m ts,
        r.status = "PASS" ∨ r.status = "FAIL" ∨ r.status = "ERROR") := by
  refine ⟨execute_tests_length env defs m ts, execute_tests_getElem env defs m ts, ?_⟩
  intro r hr
  induction defs with
  | nil => simp [execute_tests] at hr
  | cons td rest ih =>
    rcases (by simpa [execute_tests] using hr : _ ∨ _) with h | h
    · subst h; exact execute_single_test_status env td m ts
    · exact ih h

/-- C1 witness at a concrete batch of two specs, one failing query. -/
theorem execute_tests_batch_contract_witness :
    (execute_tests
      (fun q => if q = "boom" then Except.error "bad sql" else Except.ok [])
      [⟨"t1", "Uniqueness", "d1", "q1", "HIGH"⟩,
       ⟨"t2", "Nullability", "d2", "boom", "LOW"⟩] "orders" "ts").length = 2
    ∧ ((execute_single_test
        (fun q => if q = "boom" then Except.error "bad sql" else Except.ok [])
        ⟨"t2", "Nullability", "d2", "boom", "LOW"⟩ "orders" "ts").status = "PASS"
      ∨ (execute_single_test
        (fun q => if q = "boom" then Except.error "bad sql" else Except.ok [])
        ⟨"t2", "Nullability", "d2", "boom", "LOW"⟩ "orders" "ts").status = "FAIL"
      ∨ (execute_single_test
        (fun q => if q = "boom" then Except.error "bad sql" else Except.ok [])
        ⟨"t2", "Nullability", "d2", "boom", "LOW"⟩ "orders" "ts").status = "ERROR") := by
  have h := execute_tests_batch_contract
    (fun q => if q = "boom" then Except.error "bad sql" else Except.ok [])
    [⟨"t1", "Uniqueness", "d1", "q1", "HIGH"⟩,
     ⟨"t2", "Nullability", "d2", "boom", "LOW"⟩] "orders" "ts"
  exact ⟨h.1, h.2.2 _ (by decide)⟩

/-- C2: status PASS iff defect_count is 0, FAIL iff it is positive,
ERROR iff it is -1, and no other status value is reachable, for every
query behaviour and CheckSpec. -/
theorem execute_single_test_status_iff_defect_count
    (env : String → Except String (List Row)) (spec : CheckSpec) (m ts : String) :
    ((execute_single_test env spec m ts).status = "PASS" ↔
      (execute_single_test env spec m ts).defect_count = 0)
    ∧ ((execute_single_test env spec m ts).status = "FAIL" ↔
      (execute_single_test env spec m ts).defect_count > 0)
    ∧ ((execute_single_test env spec m ts).status = "ERROR" ↔
      (execute_single_test env spec m ts).defect_count = -1)
    ∧ ((execute_single_test env spec m ts).status = "PASS" ∨
       (execute_single_test env spec m ts).status = "FAIL" ∨
       (execute_single_test env spec m ts).status = "ERROR") := by
  cases h : env spec.test_query with
  | ok rows =>
    rw [execute_single_test_of_ok env spec m ts rows h]
    refine ⟨?_, ?_, ?_, ?_⟩ <;> by_cases hn : (rows.length : Int) = 0 <;>
      (simp [hn]; try omega)
  | error e =>
    rw [execute_single_test_of_error env spec m ts e h]
    refine ⟨?_, ?_, ?_, ?_⟩ <;> simp

/-- C3: a raised query exception is converted to an ERROR result with
defect_count -1, empty defect_examples, and notes prefixed
"Test execution failed: " followed by the error message; the notes are
non-empty. execute_single_test is a total function, so no exception
propagates to the caller on any input. -/
theorem execute_single_test_error_isolation
    (env : String → Except String (List Row)) (spec : CheckSpec) (m ts e : String)
    (h : env spec.test_query = Except.error e) :
    execute_single_test env spec m ts =
      ⟨spec.test_name, spec.test_category, spec.test_description, spec.test_query,
       -1, "", "ERROR", spec.severity, "Test execution failed: " ++ e, ts, m⟩
    ∧ (execute_single_test env spec m ts).notes = "Test execution failed: " ++ e
    ∧ (execute_single_test env spec m ts).notes ≠ "" := by
  have hr := execute_single_test_of_error env spec m ts e h
  refine ⟨hr, by rw [hr], ?_⟩
  rw [hr]
  intro hc
  have := congrArg String.length hc
  rw [String.length_append] at this
  have h23 : ("Test execution failed: ").length = 23 := by decide
  simp [h23] at this

/-- C3 witness at a concrete spec whose query raises. -/
theorem execute_single_test_error_isolation_witness :
    (execute_single_test (fun _ => Except.error "connection lost")
      ⟨"t", "Uniqueness", "d", "q", "HIGH"⟩ "orders" "ts").notes =
      "Test execution failed: " ++ "connection lost" := by
  exact (execute_single_test_error_isolation
    (fun _ => Except.error "connection lost")
    ⟨"t", "Uniqueness", "d", "q", "HIGH"⟩ "orders" "ts" "connection lost" rfl).2.1

/-- C9: the five CheckSpec fields are copied unchanged into the result
on both the success path and the error path. -/
theorem execute_single_test_inherits_spec_fields
    (env : String → Except String (List Row)) (spec : CheckSpec) (m ts : String) :
    (execute_single_test env spec m ts).test_name = spec.test_name
    ∧ (execute_single_test env spec m ts).test_category = spec.test_category
    ∧ (execute_single_test env spec m ts).test_description = spec.test_description
    ∧ (execute_single_test env spec m ts).test_query = spec.test_query
    ∧ (execute_single_test env spec m ts).severity = spec.severity := by
  cases h : env spec.test_query with
  | ok rows =>
    rw [execute_single_test_of_ok env spec m ts rows h]
    exact ⟨rfl, rfl, rfl, rfl, rfl⟩
  | error e =>
    rw [execute_single_test_of_error env spec m ts e h]
    exact ⟨rfl, rfl, rfl, rfl, rfl⟩

theorem count_status_eq_filter_length (l : List CheckResult) (st : String) :
    count_status l st = (l.filter (fun r => r.status = st)).length := by
  induction l with
  | nil => rfl
  | cons r rest ih =>
    by_cases h : r.status = st <;>
      simp [count_status, List.filter_cons, h, ih, Nat.add_comm]

theorem sum_positive_defects_eq_map_sum (l : List CheckResult) :
    sum_positive_defects l =
      (l.map (fun r => if r.defect_count > 0 then r.defect_count else 0)).sum := by
  induction l with
  | nil => rfl
  | cons r rest ih => simp [sum_positive_defects, ih]

theorem sum_positive_defects_eq_filter_sum (l : List CheckResult) :
    sum_positive_defects l =
      ((l.filter (fun r => 0 < r.defect_count)).map (fun r => r.defect_count)).sum := by
  induction l with
  | nil => rfl
  | cons r rest ih =>
    by_cases h : 0 < r.defect_count <;>
      simp [sum_positive_defects, List.filter_cons, h, ih]

theorem count_failures_at_severity_eq_filter_length (l : List CheckResult)
    (sev : String) :
    count_failures_at_severity l sev =
      (l.filter (fun r => r.status = "FAIL" ∧ r.severity = sev)).length := by
  induction l with
  | nil => rfl
  | cons r rest ih =>
    by_cases h : r.status = "FAIL" ∧ r.severity = sev <;>
      simp [count_failures_at_severity, List.filter_cons, h, ih, Nat.add_comm]

/-- C4: get_summary counts tests by status, sums defect_count over
exactly the results with positive defect_count (an ERROR's -1 sentinel
contributes 0, not -1), and counts FAIL results at CRITICAL and HIGH
severity. -/
theorem get_summary_aggregation (results : List CheckResult) :
    (get_summary results).total_tests = results.length
    ∧ (get_summary results).passed =
        (results.filter (fun r => r.status = "PASS")).length
    ∧ (get_summary results).failed =
        (results.filter (fun r => r.status = "FAIL")).length
    ∧ (get_summary results).errors =
        (results.filter (fun r => r.status = "ERROR")).length
    ∧ (get_summary results).total_defects =
        (results.map (fun r => if r.defect_count > 0 then r.defect_count else 0)).sum
    ∧ (get_summary results).total_defects =
        ((results.filter (fun r => 0 < r.defect_count)).map
          (fun r => r.defect_count)).sum
    ∧ (get_summary results).critical_failures =
        (results.filter (fun r => r.status = "FAIL" ∧ r.severity = "CRITICAL")).length
    ∧ (get_summary results).high_failures =
        (results.filter (fun r => r.status = "FAIL" ∧ r.severity = "HIGH")).length
    ∧ (∀ r : CheckResult, r.defect_count = -1 →
        (get_summary (r :: results)).total_defects =
          (get_summary results).total_defects) := by
  refine ⟨rfl, count_status_eq_filter_length results "PASS",
    count_status_eq_filter_length results "FAIL",
    count_status_eq_filter_length results "ERROR",
    sum_positive_defects_eq_map_sum results,
    sum_positive_defects_eq_filter_sum results,
    count_failures_at_severity_eq_filter_length results "CRITICAL",
    count_failures_at_severity_eq_filter_length results "HIGH", ?_⟩
  intro r hr
  show sum_positive_defects (r :: results) = sum_positive_defects results
  simp [sum_positive_defects, hr]

/-- C4 witness: prepending a concrete ERROR result with defect_count -1
leaves total_defects unchanged. -/
theorem get_summary_aggregation_witness :
    (get_summary
      [⟨"t2", "Nullability", "d2", "q2", -1, "", "ERROR", "HIGH", "n2", "ts", "orders"⟩,
       ⟨"t1", "Uniqueness", "d1", "q1", 2, "x=1; x=2", "FAIL", "CRITICAL", "n1", "ts", "orders"⟩]).total_defects =
    (get_summary
      [⟨"t1", "Uniqueness", "d1", "q1", 2, "x=1; x=2", "FAIL", "CRITICAL", "n1", "ts", "orders"⟩]).total_defects :=
  (get_summary_aggregation
    [⟨"t1", "Uniqueness", "d1", "q1", 2, "x=1; x=2", "FAIL", "CRITICAL", "n1", "ts", "orders"⟩]).2.2.2.2.2.2.2.2
    ⟨"t2", "Nullability", "d2", "q2", -1, "", "ERROR", "HIGH", "n2", "ts", "orders"⟩ rfl

/-- py_find returns -1 exactly when the character is absent, and
otherwise the index of the first occurrence. -/
theorem py_find_spec (s : List Char) (c : Char) :
    (py_find s c = -1 ∧ c ∉ s) ∨
    (∃ i : Nat, py_find s c = (i : Int) ∧ s[i]? = some c ∧
      ∀ m : Nat, m < i → s[m]? ≠ some c) := by
  induction s with
  | nil => exact Or.inl ⟨rfl, by simp⟩
  | cons a rest ih =>
    by_cases hac : a = c
    · refine Or.inr ⟨0, ?_, ?_, ?_⟩
      · simp [py_find, hac]
      · simp [hac]
      · intro m hm; omega
    · rcases ih with ⟨hf, hmem⟩ | ⟨i, hf, hget, hmin⟩
      · refine Or.inl ⟨?_, ?_⟩
        · simp [py_find, hac, hf]
        · simp only [List.mem_cons, not_or]
          exact ⟨fun hca => hac hca.symm, hmem⟩
      · refine Or.inr ⟨i + 1, ?_, ?_, ?_⟩
        · rw [py_find, if_neg hac, if_neg (by rw [hf]; omega), hf]
          push_cast
          ring
        · simpa using hget
        · intro m hm
          cases m with
          | zero => simp [hac]
          | succ m' => simpa using hmin m' (by omega)

/-- py_rfind returns -1 exactly when the character is absent, and
otherwise the index of the last occurrence. -/
theorem py_rfind_spec (s : List Char) (c : Char) :
    (py_rfind s c = -1 ∧ c ∉ s) ∨
    (∃ j : Nat, py_rfind s c = (j : Int) ∧ s[j]? = some c ∧
      ∀ m : Nat, j < m → s[m]? ≠ some c) := by
  induction s with
  | nil => exact Or.inl ⟨rfl, by simp⟩
  | cons a rest ih =>
    rcases ih with ⟨hf, hmem⟩ | ⟨j, hf, hget, hmax⟩
    · by_cases hac : a = c
      · refine Or.inr ⟨0, ?_, by simp [hac], ?_⟩
        · simp [py_rfind, hf, hac]
        · intro m hm
          cases m with
          | zero => omega
          | succ m' =>
            simp only [List.getElem?_cons_succ]
            intro hsome
            exact hmem (List.getElem?_mem hsome)
      · refine Or.inl ⟨by simp [py_rfind, hf, hac], ?_⟩
        simp only [List.mem_cons, not_or]
        exact ⟨fun hca => hac hca.symm, hmem⟩
    · refine Or.inr ⟨j + 1, ?_, by simpa using hget, ?_⟩
      · rw [py_rfind, if_neg (by rw [hf]; omega), hf]
        push_cast
        ring
      · intro m hm
        cases m with
        | zero => omega
        | succ m' => simpa using hmax m' (by omega)

theorem first_occurrence_unique (s : List Char) (c : Char) (i i' : Nat)
    (h1 : s[i]? = some c) (h2 : ∀ m : Nat, m < i → s[m]? ≠ some c)
    (h3 : s[i']? = some c) (h4 : ∀ m : Nat, m < i' → s[m]? ≠ some c) : i = i' := by
  rcases Nat.lt_trichotomy i i' with h | h | h
  · exact absurd h1 (h4 i h)
  · exact h
  · exact absurd h3 (h2 i' h)

theorem last_occurrence_unique (s : List Char) (c : Char) (j j' : Nat)
    (h1 : s[j]? = some c) (h2 : ∀ m : Nat, j < m → s[m]? ≠ some c)
    (h3 : s[j']? = some c) (h4 : ∀ m : Nat, j' < m → s[m]? ≠ some c) : j = j' := by
  rcases Nat.lt_trichotomy j j' with h | h | h
  · exact absurd h3 (h2 j' h)
  · exact h
  · exact absurd h1 (h4 j h)

/-- C6: response parsing takes the substring from the first opening
bracket to the last closing bracket inclusive as the JSON payload, and
a response with no opening bracket makes parsing fail with an error
(for every behaviour of the JSON decoder), returning no CheckSpec
list. -/
theorem parse_response_bracket_extraction
    (decode : List Char → Option (List RawTest)) (s : List Char) :
    (('[' ∉ s) → parse_response decode s =
      Except.error "No JSON array found in response")
    ∧ (∀ i j : Nat,
        s[i]? = some '[' → (∀ m : Nat, m < i → s[m]? ≠ some '[') →
        s[j]? = some ']' → (∀ m : Nat, m < s.length → j < m → s[m]? ≠ some ']') →
        extract_payload s = some ((s.drop i).take (j + 1 - i))) := by
  constructor
  · intro hmem
    have hf : py_find s '[' = -1 := by
      rcases py_find_spec s '[' with ⟨hf, _⟩ | ⟨i, _, hget, _⟩
      · exact hf
      · exact absurd (List.getElem?_mem hget) hmem
    simp [parse_response, extract_payload, hf]
  · intro i j hi hmini hj hmaxj
    have hfi : py_find s '[' = (i : Int) := by
      rcases py_find_spec s '[' with ⟨_, hmem⟩ | ⟨i', hf, hget, hmin⟩
      · exact absurd (List.getElem?_mem hi) hmem
      · rw [hf]
        exact congrArg _ (first_occurrence_unique s '[' i' i hget hmin hi hmini)
    have hmaxj' : ∀ m : Nat, j < m → s[m]? ≠ some ']' := by
      intro m hm
      by_cases hlen : m < s.length
      · exact hmaxj m hlen hm
      · rw [List.getElem?_eq_none (by omega)]
        simp
    have hfj : py_rfind s ']' = (j : Int) := by
      rcases py_rfind_spec s ']' with ⟨_, hmem⟩ | ⟨j', hf, hget, hmax⟩
      · exact absurd (List.getElem?_mem hj) hmem
      · rw [hf]
        exact congrArg _ (last_occurrence_unique s ']' j' j hget hmax hj hmaxj')
    have hti : ((i : Int)).toNat = i := by omega
    have htj : ((j : Int) + 1).toNat = j + 1 := by omega
    have hcond : ¬(py_find s '[' = -1 ∨ py_rfind s ']' + 1 = 0) := by
      rw [hfi, hfj]
      intro hor
      rcases hor with h1 | h2
      · omega
      · omega
    unfold extract_payload
    rw [if_neg hcond, hfi, hfj]
    simp [py_slice, hti, htj]

/-- C6 witness at a concrete response with surrounding prose. -/
theorem parse_response_bracket_extraction_witness :
    extract_payload ("no " ++ "[a]" ++ " end").toList =
      some ((("no " ++ "[a]" ++ " end").toList.drop 3).take (5 + 1 - 3)) := by
  exact (parse_response_bracket_extraction (fun _ => none)
    ("no " ++ "[a]" ++ " end").toList).2 3 5
    (by decide) (by decide) (by decide) (by decide)

/-- The validation loop is a filter on the decoded elements. -/
theorem validate_tests_eq_filter (tests : List RawTest) :
    validate_tests tests = tests.filter hasAllRequiredFields := by
  induction tests with
  | nil => rfl
  | cons test rest ih =>
    by_cases h : hasAllRequiredFields test <;>
      simp [validate_tests, List.filter_cons, h, ih]

/-- C5: an element decoded from the generator's JSON array is retained
exactly when all five required fields are present; dropping invalid
elements does not fail the batch (the parse still returns ok), and an
array of one complete and one incomplete object validates to exactly
the complete one. -/
theorem parse_response_validation
    (tests : List RawTest) (t : RawTest)
    (decode : List Char → Option (List RawTest)) (s payload : List Char)
    (hx : extract_payload s = some payload) (hd : decode payload = some tests) :
    (t ∈ validate_tests tests ↔ t ∈ tests ∧ hasAllRequiredFields t = true)
    ∧ parse_response decode s = Except.ok (validate_tests tests)
    ∧ (∀ good bad : RawTest, hasAllRequiredFields good = true →
        hasAllRequiredFields bad = false → validate_tests [good, bad] = [good]) := by
  refine ⟨?_, ?_, ?_⟩
  · rw [validate_tests_eq_filter]
    simp [List.mem_filter]
  · simp [parse_response, hx, hd]
  · intro good bad hg hb
    simp [validate_tests, hg, hb]

/-- C5 witness: a complete and an incomplete object, the latter
dropped. -/
theorem parse_response_validation_witness :
    validate_tests
      [[("test_name", "a"), ("test_category", "b"), ("test_description", "c"),
        ("test_query", "d"), ("severity", "e")],
       [("test_name", "a"), ("test_category", "b")]] =
      [[("test_name", "a"), ("test_category", "b"), ("test_description", "c"),
        ("test_query", "d"), ("severity", "e")]] := by
  exact (parse_response_validation [] [] (fun _ => some []) ("[]".toList)
      ("[]".toList) (by decide) rfl).2.2
    [("test_name", "a"), ("test_category", "b"), ("test_description", "c"),
      ("test_query", "d"), ("severity", "e")]
    [("test_name", "a"), ("test_category", "b")] (by decide) (by decide)

/-- C10: the validated list is exactly the order-preserving subsequence
of decoded elements carrying all five required fields (a filter, hence
a sublist: no reordering, duplication or insertion), and batch
execution then produces its i-th result from the i-th validated
element. -/
theorem validated_subsequence_order (tests : List RawTest)
    (env : String → Except String (List Row)) (m ts : String) :
    validate_tests tests = tests.filter hasAllRequiredFields
    ∧ List.Sublist (validate_tests tests) tests
    ∧ (∀ t ∈ validate_tests tests, hasAllRequiredFields t = true)
    ∧ (∀ t ∈ tests, hasAllRequiredFields t = true → t ∈ validate_tests tests)
    ∧ (execute_tests env ((validate_tests tests).map specOfRaw) m ts).length =
        (validate_tests tests).length
    ∧ (∀ i : Nat,
        (execute_tests env ((validate_tests tests).map specOfRaw) m ts)[i]? =
          ((validate_tests tests)[i]?).map
            (fun t => execute_single_test env (specOfRaw t) m ts)) := by
  refine ⟨validate_tests_eq_filter tests, ?_, ?_, ?_, ?_, ?_⟩
  · rw [validate_tests_eq_filter]
    exact List.filter_sublist tests
  · intro t ht
    rw [validate_tests_eq_filter] at ht
    exact (List.mem_filter.mp ht).2
  · intro t ht hall
    rw [validate_tests_eq_filter]
    exact List.mem_filter.mpr ⟨ht, hall⟩
  · rw [execute_tests_length, List.length_map]
  · intro i
    rw [execute_tests_getElem]
    cases h : (validate_tests tests)[i]? <;> simp [h]

/-- C10 witness at a concrete decoded array with an invalid element in
the middle. -/
theorem validated_subsequence_order_witness :
    hasAllRequiredFields
      [("test_name", "a"), ("test_category", "b"), ("test_description", "c"),
        ("test_query", "d"), ("severity", "e")] = true := by
  exact (validated_subsequence_order
      [[("test_name", "a"), ("test_category", "b"), ("test_description", "c"),
        ("test_query", "d"), ("severity", "e")],
       [("severity", "e")]]
      (fun _ => Except.ok []) "orders" "ts").2.2.1
    [("test_name", "a"), ("test_category", "b"), ("test_description", "c"),
      ("test_query", "d"), ("severity", "e")] (by decide)

/-- C7: a query returning a positive number of rows yields FAIL with
defect_count equal to the row count and defect_examples rendering the
first MAX_DEFECT_EXAMPLES = 5 rows, key=value pairs joined by ", " and
rows joined by "; ", so exactly min(row count, 5) rows are rendered. -/
theorem execute_single_test_fail_examples
    (env : String → Except String (List Row)) (spec : CheckSpec) (m ts : String)
    (rows : List Row) (h : env spec.test_query = Except.ok rows)
    (hpos : 0 < rows.length) :
    (execute_single_test env spec m ts).status = "FAIL"
    ∧ (execute_single_test env spec m ts).defect_count = (rows.length : Int)
    ∧ (execute_single_test env spec m ts).defect_examples =
        String.intercalate "; " ((rows.take 5).map renderRow)
    ∧ (rows.take 5).length = min rows.length 5
    ∧ MAX_DEFECT_EXAMPLES = 5 := by
  cases rows with
  | nil => simp at hpos
  | cons r0 rest =>
    rw [execute_single_test_of_ok env spec m ts (r0 :: rest) h]
    refine ⟨?_, rfl, ?_, ?_, rfl⟩
    · simp
      omega
    · simp [format_defect_examples, MAX_DEFECT_EXAMPLES]
    · simp [List.length_take]
      omega

/-- C7 witness: a query returning 7 rows yields defect_count 7 with
exactly 5 rendered rows. -/
theorem execute_single_test_fail_examples_witness :
    (execute_single_test
      (fun _ => Except.ok [[("id", "1")], [("id", "2")], [("id", "3")],
        [("id", "4")], [("id", "5")], [("id", "6")], [("id", "7")]])
      ⟨"t", "Uniqueness", "d", "q", "HIGH"⟩ "orders" "ts").defect_count = 7 := by
  exact (execute_single_test_fail_examples
    (fun _ => Except.ok [[("id", "1")], [("id", "2")], [("id", "3")],
      [("id", "4")], [("id", "5")], [("id", "6")], [("id", "7")]])
    ⟨"t", "Uniqueness", "d", "q", "HIGH"⟩ "orders" "ts"
    [[("id", "1")], [("id", "2")], [("id", "3")], [("id", "4")], [("id", "5")],
      [("id", "6")], [("id", "7")]] rfl (by decide)).2.1

/-- C8: on the success path, zero defects produce the lowercased
no-issues message; positive defects produce the category-specific
template for each of the seven enumerated categories (written in the
code as the strings with spaces, e.g. "Referential Integrity" for
ReferentialIntegrity) and the generic defect message for any other
category. -/
theorem generate_notes_templates
    (env : String → Except String (List Row)) (spec : CheckSpec) (m ts : String)
    (rows : List Row) (h : env spec.test_query = Except.ok rows) :
    (rows.length = 0 → (execute_single_test env spec m ts).notes =
      "No issues found - " ++ spec.test_description.toLower)
    ∧ (0 < rows.length →
        ((spec.test_category = "Uniqueness" →
          (execute_single_test env spec m ts).notes =
            "Found " ++ toString ((rows.length : Nat) : Int) ++
              " duplicate record(s) - investigate data load process")
        ∧ (spec.test_category = "Nullability" →
          (execute_single_test env spec m ts).notes =
            "Found " ++ toString ((rows.length : Nat) : Int) ++
              " record(s) with unexpected NULL values")
        ∧ (spec.test_category = "Referential Integrity" →
          (execute_single_test env spec m ts).notes =
            "Found " ++ toString ((rows.length : Nat) : Int) ++
              " record(s) with referential integrity issues")
        ∧ (spec.test_category = "Date Validity" →
          (execute_single_test env spec m ts).notes =
            "Found " ++ toString ((rows.length : Nat) : Int) ++
              " record(s) with invalid dates")
        ∧ (spec.test_category = "Business Logic" →
          (execute_single_test env spec m ts).notes =
            "Found " ++ toString ((rows.length : Nat) : Int) ++
              " record(s) with business logic violations")
        ∧ (spec.test_category = "Value Range" →
          (execute_single_test env spec m ts).notes =
            "Found " ++ toString ((rows.length : Nat) : Int) ++
              " record(s) with values outside expected range")
        ∧ (spec.test_category = "Data Consistency" →
          (execute_single_test env spec m ts).notes =
            "Found " ++ toString ((rows.length : Nat) : Int) ++
              " record(s) with data consistency issues")
        ∧ (spec.test_category ∉
            (["Uniqueness", "Nullability", "Referential Integrity",
              "Date Validity", "Business Logic", "Value Range",
              "Data Consistency"] : List String) →
          (execute_single_test env spec m ts).notes =
            "Found " ++ toString ((rows.length : Nat) : Int) ++ " defect(s)"))) := by
  rw [execute_single_test_of_ok env spec m ts rows h]
  constructor
  · intro hlen
    simp [generate_notes, hlen]
  · intro hpos
    have hne : ¬((rows.length : Int) = 0) := by omega
    rw [if_neg hne]
    refine ⟨?_, ?_, ?_, ?_, ?_, ?_, ?_, ?_⟩ <;> intro hc
    · simp [generate_notes, hc]
    · simp [generate_notes, hc]
    · simp [generate_notes, hc]
    · simp [generate_notes, hc]
    · simp [generate_notes, hc]
    · simp [generate_notes, hc]
    · simp [generate_notes, hc]
    · simp only [List.mem_cons, List.not_mem_nil, not_or] at hc
      obtain ⟨h1, h2, h3, h4, h5, h6, h7, -⟩ := hc
      simp [generate_notes, h1, h2, h3, h4, h5, h6, h7]

/-- C8 witness: one defect in a Uniqueness check yields the duplicate
template naming the count. -/
theorem generate_notes_templates_witness :
    (execute_single_test (fun _ => Except.ok [[("id", "1")]])
      ⟨"t", "Uniqueness", "d", "q", "HIGH"⟩ "orders" "ts").notes =
      "Found 1 duplicate record(s) - investigate data load process" := by
  have h := (generate_notes_templates (fun _ => Except.ok [[("id", "1")]])
    ⟨"t", "Uniqueness", "d", "q", "HIGH"⟩ "orders" "ts" [[("id", "1")]] rfl).2
    (by decide)
  exact (h.1 rfl).trans (by decide)

end DataQualityAudit
